import Mathlib

/-!
Shallow embedding of the TaskTrackr reminder/notification subsystem.

This file embeds, as executable Lean definitions, the parts of the
repository that the reminder/summary claims are about:

* `src/common/models/Task.js` — the task document shape (status enum,
  `dueDate`, `isArchived`, the `reminder` sub-record
  `{enabled, reminderDate, notified}`);
* `src/notification-service/services/reminderService.js` —
  `checkAndSendReminders` (the scan cycle), `generateUserSummary`
  (the overdue count and `completionRate`), `scheduleReminder` and
  `cancelReminder`;
* `src/task-service/src/controllers/taskController.js` — `updateTask`
  (the generic edit endpoint, a `findOneAndUpdate` that `$set`s exactly
  the client-supplied fields).

Instants are modelled as milliseconds since the epoch (`Int`), matching
JavaScript `Date.getTime()`.  Mongo documents that may lack a date hold
`Option Int`.  The injected email delivery (`emailService.sendTaskReminder`,
which either resolves or throws) is modelled by an oracle
`deliver : Nat → Bool` giving the success of the notifier call for a task id.
A Mongoose `task.save()` after mutating only `reminder.notified` issues an
update of that path keyed by `_id` with no further condition; it is modelled
as an unconditional per-id field write on the store.
-/

namespace TaskTrackr

/-- Task status enum from `src/common/models/Task.js`
(`enum: ['pending', 'in-progress', 'completed', 'cancelled']`). -/
inductive Status
  | pending
  | inProgress
  | completed
  | cancelled
deriving DecidableEq, Repr

/-- The `reminder` sub-record of a task
(`{enabled : Bool, reminderDate : Date?, notified : Bool}`). -/
structure Reminder where
  enabled : Bool
  reminderDate : Option Int
  notified : Bool
deriving DecidableEq, Repr

/-- The slice of a task document that the reminder subsystem reads and
writes.  `prefEmail` is the owner's `preferences?.notifications?.email`
value obtained by `populate('userId', 'name email preferences')`:
`none` models the field being absent/undefined, `some b` the stored
boolean. -/
structure Task where
  id : Nat
  userId : Nat
  status : Status
  dueDate : Option Int
  isArchived : Bool
  reminder : Reminder
  prefEmail : Option Bool
deriving DecidableEq, Repr

/-- Milliseconds in one minute. -/
def msPerMinute : Int := 60 * 1000

/-- The due-reminder query of `checkAndSendReminders`
(`reminderService.js` lines 16–24): `reminder.enabled = true`,
`reminder.notified = false`, `reminder.reminderDate ≤ windowEnd`
(a `$lte` that a `null` date never matches),
`status ∈ {pending, in-progress}`, `isArchived = false`.
`windowEnd` is the `reminderWindow` the caller computed. -/
def isDueReminder (windowEnd : Int) (t : Task) : Bool :=
  t.reminder.enabled && !t.reminder.notified &&
    (match t.reminder.reminderDate with
     | some d => decide (d ≤ windowEnd)
     | none => false) &&
    (t.status == .pending || t.status == .inProgress) &&
    !t.isArchived

/-- The preference gate of `checkAndSendReminders` (line 33):
`user.preferences?.notifications?.email !== false` — an absent
preference counts as enabled. -/
def shouldSendEmail (t : Task) : Bool :=
  t.prefEmail != some false

/-- Per-task outcome of one scan cycle, distinguishing the four paths of
the per-task closure in `checkAndSendReminders` (lines 28–45):
not selected by the query; email sent and task saved; email skipped by
the preference gate (the task is still saved as notified); email threw
(the catch block runs, the task is not saved). -/
inductive Outcome
  | notDue
  | delivered
  | skippedPref
  | deliveryFailed
deriving DecidableEq, Repr

/-- One task's trip through the per-task closure of
`checkAndSendReminders` (`reminderService.js` lines 28–45), with `now`
the cycle's captured `new Date()`.  The query window is
`now + 5 * 60 * 1000` (line 13).  For a selected task: if the preference
gate passes, `emailService.sendTaskReminder` is awaited — on success the
code sets `task.reminder.notified = true` and saves; if it throws, the
`catch` logs and the task is left unchanged.  If the gate blocks the
email, the code still falls through to `notified = true` and `save()`. -/
def processReminderTask (now : Int) (deliver : Nat → Bool) (t : Task) :
    Task × Outcome :=
  if isDueReminder (now + 5 * msPerMinute) t then
    if shouldSendEmail t then
      if deliver t.id then
        ({ t with reminder := { t.reminder with notified := true } }, .delivered)
      else
        (t, .deliveryFailed)
    else
      ({ t with reminder := { t.reminder with notified := true } }, .skippedPref)
  else
    (t, .notDue)

/-- One full scan cycle (`checkAndSendReminders`): every stored task is
either untouched (not selected by the query) or processed by the
per-task closure; `Promise.allSettled` over per-task `try`/`catch`
means one task's failure never affects another's processing.  Returns
the store after the cycle and each task's `(id, outcome)`. -/
def checkAndSendReminders (now : Int) (deliver : Nat → Bool)
    (store : List Task) : List Task × List (Nat × Outcome) :=
  (store.map (fun t => (processReminderTask now deliver t).1),
   store.map (fun t => (t.id, (processReminderTask now deliver t).2)))

/-- The "mark as sent" step of the dispatch path (`reminderService.js`
lines 38–39): `task.reminder.notified = true; await task.save()`.
Mongoose `save()` on a document whose only modified path is
`reminder.notified` issues an update of that path keyed by the document
`_id`, with no condition on the stored document's current `reminder`
state and no applied/not-applied result. -/
def markReminderNotified (taskId : Nat) (store : List Task) : List Task :=
  store.map (fun u =>
    if u.id = taskId then
      { u with reminder := { u.reminder with notified := true } }
    else u)

-- A due task with a failing notifier is left unchanged.
example :
    (processReminderTask 0 (fun _ => false)
      { id := 1, userId := 2, status := .pending, dueDate := none,
        isArchived := false,
        reminder := { enabled := true, reminderDate := some 0, notified := false },
        prefEmail := none }).2 = Outcome.deliveryFailed := by decide

/-- The reminder-relevant fields a client may put in the `req.body` of
`PUT /tasks/:taskId` (`taskController.js` `updateTask`).  After deleting
`userId`/`_id`/`createdAt`/`syncVersion`, the remaining fields are passed
verbatim to `findOneAndUpdate`, i.e. Mongo `$set`s exactly the supplied
paths and leaves every other path of the document untouched.  `none`
means the client did not supply the field. -/
structure TaskUpdates where
  status : Option Status := none
  dueDate : Option (Option Int) := none
  reminderEnabled : Option Bool := none
  reminderDate : Option (Option Int) := none
  reminderNotified : Option Bool := none
deriving DecidableEq, Repr

/-- Apply a `$set` of the supplied paths to one task document, as
`findOneAndUpdate` does in `updateTask`. -/
def applyUpdates (upd : TaskUpdates) (t : Task) : Task :=
  { t with
    status := upd.status.getD t.status,
    dueDate := upd.dueDate.getD t.dueDate,
    reminder :=
      { enabled := upd.reminderEnabled.getD t.reminder.enabled,
        reminderDate := upd.reminderDate.getD t.reminder.reminderDate,
        notified := upd.reminderNotified.getD t.reminder.notified } }

/-- The `updateTask` endpoint (`taskController.js` lines 135–157):
`Task.findOneAndUpdate({ _id: taskId, userId }, updates, ...)` — the
document matching both the task id and the owner gets exactly the
supplied paths `$set`; no other field (in particular not
`reminder.notified`) is touched by this endpoint. -/
def updateTask (taskId userId : Nat) (upd : TaskUpdates)
    (store : List Task) : List Task :=
  store.map (fun t =>
    if t.id = taskId && t.userId = userId then applyUpdates upd t else t)

/-- Result object returned by `scheduleReminder` / `cancelReminder`
(`reminderService.js` lines 259–319): both paths end in a plain object
with a `success` flag and a `message`; the catch path adds the error
text, the schedule success path echoes the reminder date. -/
structure OpResult where
  success : Bool
  message : String
  reminderDate : Option Int := none
  error : Option String := none
deriving DecidableEq, Repr

/-- The `scheduleReminder(taskId, reminderDate)` operation
(`reminderService.js` lines 259–287).  `Task.findById`; a missing task throws
`'Task not found'`, caught by the surrounding `try`/`catch` which
returns `{success: false, message: 'Failed to schedule reminder'}`.
Otherwise the code sets `reminder.enabled = true`,
`reminder.reminderDate = reminderDate`, `reminder.notified = false` and
saves; a store failure while saving (modelled by `saveFails`) also lands
in the catch.  On success it returns
`{success: true, message: 'Reminder scheduled successfully', reminderDate}`.
Returns the result object together with the store after the call. -/
def scheduleReminder (store : List Task) (taskId : Nat)
    (reminderDate : Int) (saveFails : Bool) : OpResult × List Task :=
  match store.find? (fun t => t.id = taskId) with
  | none =>
      ({ success := false, message := "Failed to schedule reminder",
         error := some "Task not found" }, store)
  | some _ =>
      if saveFails then
        ({ success := false, message := "Failed to schedule reminder",
           error := some "store failure" }, store)
      else
        ({ success := true, message := "Reminder scheduled successfully",
           reminderDate := some reminderDate },
         store.map (fun t =>
           if t.id = taskId then
             { t with reminder :=
                 { enabled := true, reminderDate := some reminderDate,
                   notified := false } }
           else t))

/-- The `cancelReminder(taskId)` operation (`reminderService.js`
lines 292–319): the same shape with `reminder.enabled = false`, `reminder.notified = false`,
`reminder.reminderDate = null`, and messages
`'Reminder cancelled successfully'` / `'Failed to cancel reminder'`. -/
def cancelReminder (store : List Task) (taskId : Nat)
    (saveFails : Bool) : OpResult × List Task :=
  match store.find? (fun t => t.id = taskId) with
  | none =>
      ({ success := false, message := "Failed to cancel reminder",
         error := some "Task not found" }, store)
  | some _ =>
      if saveFails then
        ({ success := false, message := "Failed to cancel reminder",
           error := some "store failure" }, store)
      else
        ({ success := true, message := "Reminder cancelled successfully" },
         store.map (fun t =>
           if t.id = taskId then
             { t with reminder :=
                 { enabled := false, reminderDate := none,
                   notified := false } }
           else t))

/-- Milliseconds in one day. -/
def msPerDay : Int := 86400000

/-- The value a `Date` holding `now` takes after
`setHours(0, 0, 0, 0)`, with the process local timezone read as the
single reference timezone (UTC): the largest multiple of
86 400 000 ms not exceeding `now`.  This is also the spec's
`startOfDay(now)`. -/
def startOfDay (now : Int) : Int :=
  msPerDay * (Int.fdiv now msPerDay)

/-- The value a `Date` holding `now` takes after
`setHours(23, 59, 59, 999)` in the reference timezone: the last
millisecond of the current day, `startOfDay now + 86 399 999`. -/
def endOfDay (now : Int) : Int :=
  startOfDay now + (msPerDay - 1)

/-- The overdue-count query of `generateUserSummary`
(`reminderService.js` lines 139–144) as it is actually executed: owner
matches, `dueDate: { $lt: today }` (a `$lt` a `null` date never
matches), `status ∈ {pending, in-progress}`, `isArchived = false`.
The filter object holds the `today` `Date` by reference; within the
same `Promise.all` array literal the due-today query (lines 147–155)
computes `new Date(today.setHours(0, 0, 0, 0))` and
`new Date(today.setHours(23, 59, 59, 999))`, and `setHours` mutates
`today` in place.  Mongoose queries are lazy and cast their filter at
execution, which happens only after the whole array literal — both
mutations included — has been evaluated, so the bound the store
receives is `today` at 23:59:59.999 of the current local day:
`endOfDay now`, not the instant `now` the summary started with. -/
def overdueQuery (now : Int) (userId : Nat) (t : Task) : Bool :=
  t.userId == userId &&
    (match t.dueDate with
     | some d => decide (d < endOfDay now)
     | none => false) &&
    (t.status == .pending || t.status == .inProgress) &&
    !t.isArchived

/-- The summary's `overdueTasks` value: `Task.countDocuments` of
`overdueQuery` over the store. -/
def overdueCount (now : Int) (userId : Nat) (store : List Task) : Nat :=
  (store.filter (overdueQuery now userId)).length

/-- The overdue predicate exactly as the spec words it:
`dueDate < startOfDay(now)`, `status ∉ {completed, cancelled}`,
`archived = false` (for the given user's summary). -/
def specOverdue (now : Int) (userId : Nat) (t : Task) : Bool :=
  t.userId == userId &&
    (match t.dueDate with
     | some d => decide (d < startOfDay now)
     | none => false) &&
    !(t.status == .completed || t.status == .cancelled) &&
    !t.isArchived

/-- The spec-worded overdue predicate with the one correction the code
forces: the bound is `endOfDay now` — the end (23:59:59.999) of the
current day in the reference timezone, the value the aliased and
mutated `today` holds when the query executes — not `startOfDay now`. -/
def amendedOverdue (now : Int) (userId : Nat) (t : Task) : Bool :=
  t.userId == userId &&
    (match t.dueDate with
     | some d => decide (d < endOfDay now)
     | none => false) &&
    !(t.status == .completed || t.status == .cancelled) &&
    !t.isArchived

/-- JavaScript `Math.round` on an exact rational: half-up rounding,
`⌊x + 1/2⌋`. -/
def mathRound (x : ℚ) : ℤ :=
  ⌊x + 1 / 2⌋

/-- The summary's completion rate (`reminderService.js` line 179):
`totalTasks > 0 ? Math.round((completedTasks / totalTasks) * 100) : 0`,
with JavaScript number arithmetic on task counts read as exact rational
arithmetic. -/
def completionRate (totalTasks completedTasks : ℕ) : ℤ :=
  if 0 < totalTasks then
    mathRound (((completedTasks : ℚ) / (totalTasks : ℚ)) * 100)
  else 0

/-! Helper lemmas about the due-reminder query. -/

/-- A task selected by the due-reminder query has `notified = false`. -/
lemma notified_false_of_isDue {w : Int} {t : Task}
    (h : isDueReminder w t = true) : t.reminder.notified = false := by
  unfold isDueReminder at h
  simp only [Bool.and_eq_true, Bool.not_eq_true'] at h
  exact h.1.1.1.2

/-- A task already marked notified is never selected by the query. -/
lemma isDue_false_of_notified {w : Int} {t : Task}
    (h : t.reminder.notified = true) : isDueReminder w t = false := by
  unfold isDueReminder
  simp [h]

/-- A task selected by the due-reminder query has a reminder date, and
that date lies inside the window. -/
lemma reminderDate_le_of_isDue {w : Int} {t : Task}
    (h : isDueReminder w t = true) :
    ∃ d : Int, t.reminder.reminderDate = some d ∧ d ≤ w := by
  unfold isDueReminder at h
  simp only [Bool.and_eq_true] at h
  rcases h with ⟨⟨⟨⟨-, -⟩, hdate⟩, -⟩, -⟩
  cases hd : t.reminder.reminderDate with
  | none => rw [hd] at hdate; exact absurd hdate (by simp)
  | some d =>
      refine ⟨d, rfl, ?_⟩
      rw [hd] at hdate
      exact of_decide_eq_true hdate

/-- A task that the query does not select passes through a cycle
unchanged with outcome `notDue`. -/
lemma processReminderTask_notDue {now : Int} {deliver : Nat → Bool}
    {t : Task} (h : isDueReminder (now + 5 * msPerMinute) t = false) :
    processReminderTask now deliver t = (t, Outcome.notDue) := by
  unfold processReminderTask
  rw [if_neg (by rw [h]; exact Bool.false_ne_true)]

/-- C1.  Counterexample to the claim that marking a reminder sent is a
conditional (compare-and-swap) store update.  The dispatcher captured a
snapshot whose `reminder.reminderDate` was `5`; the stored document
meanwhile holds `reminderDate = some 999` (a concurrent edit).  The
claimed conditional update must not apply (current `reminderAt` differs
from the captured one), leaving `notified = false`; the code's
read-then-write mark nevertheless sets `notified = true` on the stored
document, unconditionally and without reporting whether it applied. -/
theorem markReminderNotified_cas_counterexample :
    (markReminderNotified 1
        [{ id := 1, userId := 2, status := Status.pending, dueDate := none,
           isArchived := false,
           reminder := { enabled := true, reminderDate := some 999,
                         notified := false },
           prefEmail := none }]).map
        (fun u => (u.reminder.notified, u.reminder.reminderDate))
      = [(true, some 999)] ∧ (some 999 : Option Int) ≠ some 5 := by
  decide

/-- C1 (amended).  The mark-as-sent step of the dispatch path is an
application-level read-then-write, not a conditional store update: for
any stored document with the dispatched task id — whatever its current
`reminderDate` or `notified` value — the save unconditionally writes
`notified = true`, and no applied/not-applied result exists. -/
theorem markReminderNotified_unconditional (taskId : Nat) (cur : Task)
    (store : List Task) (hmem : cur ∈ store) (hid : cur.id = taskId) :
    { cur with reminder := { cur.reminder with notified := true } }
      ∈ markReminderNotified taskId store := by
  unfold markReminderNotified
  refine List.mem_map.mpr ⟨cur, hmem, ?_⟩
  simp [hid]

/-- Witness for `markReminderNotified_unconditional` at a concrete
store: a stored task whose `notified` is already `true` (the claimed
conditional update would refuse) is still overwritten. -/
theorem markReminderNotified_unconditional_witness :
    ({ id := 1, userId := 2, status := Status.pending, dueDate := none,
       isArchived := false,
       reminder := { enabled := true, reminderDate := some 999,
                     notified := true },
       prefEmail := none } : Task)
      ∈ markReminderNotified 1
        [{ id := 1, userId := 2, status := Status.pending, dueDate := none,
           isArchived := false,
           reminder := { enabled := true, reminderDate := some 999,
                         notified := true },
           prefEmail := none }] :=
  markReminderNotified_unconditional 1 _ _ (List.mem_singleton.mpr rfl) rfl

/-- C2.  At-most-once per reminder date: a task whose outcome in one
scan cycle is `delivered` had `notified = false` before the cycle and
`notified = true` after it (the single false→true transition); its
post-cycle record is in the cycle's resulting store; and a second cycle
run at any time with any notifier — in particular an immediate re-run
with no edits in between — reports `notDue` for it and leaves it
unchanged: the notifier is not invoked again and no second notification
is produced for that `reminderAt`. -/
theorem delivered_at_most_once (now now2 : Int) (deliver deliver2 : Nat → Bool)
    (store : List Task) (t : Task) (hmem : t ∈ store)
    (h : (processReminderTask now deliver t).2 = Outcome.delivered) :
    t.reminder.notified = false ∧
    (processReminderTask now deliver t).1.reminder.notified = true ∧
    (processReminderTask now deliver t).1 ∈ (checkAndSendReminders now deliver store).1 ∧
    processReminderTask now2 deliver2 (processReminderTask now deliver t).1
      = ((processReminderTask now deliver t).1, Outcome.notDue) ∧
    ((processReminderTask now deliver t).1.id, Outcome.notDue)
      ∈ (checkAndSendReminders now2 deliver2
          (checkAndSendReminders now deliver store).1).2 := by
  by_cases hdue : isDueReminder (now + 5 * msPerMinute) t = true
  case neg =>
    exfalso
    unfold processReminderTask at h
    rw [if_neg hdue] at h
    exact Outcome.noConfusion h
  case pos =>
    have hnot := notified_false_of_isDue hdue
    have hres : (processReminderTask now deliver t).1.reminder.notified = true := by
      unfold processReminderTask at h ⊢
      rw [if_pos hdue] at h ⊢
      by_cases hpref : shouldSendEmail t = true
      · rw [if_pos hpref] at h ⊢
        by_cases hdel : deliver t.id = true
        · rw [if_pos hdel]
        · rw [if_neg hdel] at h
          exact absurd h (by simp)
      · rw [if_neg hpref]
    have hsecond :
        processReminderTask now2 deliver2 (processReminderTask now deliver t).1
          = ((processReminderTask now deliver t).1, Outcome.notDue) :=
      processReminderTask_notDue (isDue_false_of_notified hres)
    refine ⟨hnot, hres, ?_, hsecond, ?_⟩
    · exact List.mem_map.mpr ⟨t, hmem, rfl⟩
    · have hmem1 : (processReminderTask now deliver t).1
          ∈ (checkAndSendReminders now deliver store).1 :=
        List.mem_map.mpr ⟨t, hmem, rfl⟩
      unfold checkAndSendReminders
      refine List.mem_map.mpr ⟨(processReminderTask now deliver t).1, hmem1, ?_⟩
      rw [hsecond]

/-- Witness for `delivered_at_most_once`: a concrete due task,
delivered in the first cycle, is marked and ignored by an identical
second cycle. -/
theorem delivered_at_most_once_witness :
    ({ id := 1, userId := 2, status := Status.pending, dueDate := none,
       isArchived := false,
       reminder := { enabled := true, reminderDate := some 0, notified := false },
       prefEmail := none } : Task).reminder.notified = false ∧
    (processReminderTask 0 (fun _ => true)
      { id := 1, userId := 2, status := Status.pending, dueDate := none,
        isArchived := false,
        reminder := { enabled := true, reminderDate := some 0, notified := false },
        prefEmail := none }).1.reminder.notified = true ∧
    (processReminderTask 0 (fun _ => true)
      { id := 1, userId := 2, status := Status.pending, dueDate := none,
        isArchived := false,
        reminder := { enabled := true, reminderDate := some 0, notified := false },
        prefEmail := none }).1 ∈ (checkAndSendReminders 0 (fun _ => true)
        [{ id := 1, userId := 2, status := Status.pending, dueDate := none,
           isArchived := false,
           reminder := { enabled := true, reminderDate := some 0, notified := false },
           prefEmail := none }]).1 ∧
    processReminderTask 0 (fun _ => true)
      (processReminderTask 0 (fun _ => true)
        { id := 1, userId := 2, status := Status.pending, dueDate := none,
          isArchived := false,
          reminder := { enabled := true, reminderDate := some 0, notified := false },
          prefEmail := none }).1
      = ((processReminderTask 0 (fun _ => true)
          { id := 1, userId := 2, status := Status.pending, dueDate := none,
            isArchived := false,
            reminder := { enabled := true, reminderDate := some 0, notified := false },
            prefEmail := none }).1, Outcome.notDue) ∧
    ((processReminderTask 0 (fun _ => true)
        { id := 1, userId := 2, status := Status.pending, dueDate := none,
          isArchived := false,
          reminder := { enabled := true, reminderDate := some 0, notified := false },
          prefEmail := none }).1.id, Outcome.notDue)
      ∈ (checkAndSendReminders 0 (fun _ => true)
          (checkAndSendReminders 0 (fun _ => true)
            [{ id := 1, userId := 2, status := Status.pending, dueDate := none,
               isArchived := false,
               reminder := { enabled := true, reminderDate := some 0, notified := false },
               prefEmail := none }]).1).2 :=
  delivered_at_most_once 0 0 (fun _ => true) (fun _ => true) _ _
    (List.mem_singleton.mpr rfl) (by decide)

/-- C4.  Counterexample to the claim that a disabled notification
preference short-circuits without marking `reminder.sent`: for a due
task whose owner has `preferences.notifications.email = false`, the code
skips the email but still falls through to `notified = true` and
`save()` — the task is marked. -/
theorem disabled_pref_marks_counterexample :
    (processReminderTask 0 (fun _ => true)
        { id := 1, userId := 2, status := Status.pending, dueDate := none,
          isArchived := false,
          reminder := { enabled := true, reminderDate := some 0, notified := false },
          prefEmail := some false }).2 = Outcome.skippedPref ∧
    (processReminderTask 0 (fun _ => true)
        { id := 1, userId := 2, status := Status.pending, dueDate := none,
          isArchived := false,
          reminder := { enabled := true, reminderDate := some 0, notified := false },
          prefEmail := some false }).1.reminder.notified = true := by
  decide

/-- C4 (amended).  For a due task whose owner disabled the email
channel, the dispatch path skips the notifier (outcome `skippedPref`,
no delivery attempt) but marks `reminder.notified = true`; as a
consequence the task stops reappearing: every later cycle, at any time
and with any notifier, reports `notDue` for it and leaves it
unchanged. -/
theorem disabled_pref_skips_and_marks (now : Int) (deliver : Nat → Bool)
    (t : Task) (hdue : isDueReminder (now + 5 * msPerMinute) t = true)
    (hpref : t.prefEmail = some false) :
    (processReminderTask now deliver t).2 = Outcome.skippedPref ∧
    (processReminderTask now deliver t).1.reminder.notified = true ∧
    ∀ (now2 : Int) (deliver2 : Nat → Bool),
      processReminderTask now2 deliver2 (processReminderTask now deliver t).1
        = ((processReminderTask now deliver t).1, Outcome.notDue) := by
  have hps : shouldSendEmail t = false := by
    unfold shouldSendEmail
    rw [hpref]
    decide
  have hfst : (processReminderTask now deliver t).1
      = { t with reminder := { t.reminder with notified := true } } := by
    unfold processReminderTask
    rw [if_pos hdue, if_neg (by rw [hps]; exact Bool.false_ne_true)]
  have hsnd : (processReminderTask now deliver t).2 = Outcome.skippedPref := by
    unfold processReminderTask
    rw [if_pos hdue, if_neg (by rw [hps]; exact Bool.false_ne_true)]
  refine ⟨hsnd, by rw [hfst], ?_⟩
  intro now2 deliver2
  exact processReminderTask_notDue (isDue_false_of_notified (by rw [hfst]))

/-- Witness for `disabled_pref_skips_and_marks` at a concrete task. -/
theorem disabled_pref_skips_and_marks_witness :
    (processReminderTask 0 (fun _ => true)
        { id := 1, userId := 2, status := Status.pending, dueDate := none,
          isArchived := false,
          reminder := { enabled := true, reminderDate := some 0, notified := false },
          prefEmail := some false }).2 = Outcome.skippedPref ∧
    (processReminderTask 0 (fun _ => true)
        { id := 1, userId := 2, status := Status.pending, dueDate := none,
          isArchived := false,
          reminder := { enabled := true, reminderDate := some 0, notified := false },
          prefEmail := some false }).1.reminder.notified = true ∧
    ∀ (now2 : Int) (deliver2 : Nat → Bool),
      processReminderTask now2 deliver2
          (processReminderTask 0 (fun _ => true)
            { id := 1, userId := 2, status := Status.pending, dueDate := none,
              isArchived := false,
              reminder := { enabled := true, reminderDate := some 0, notified := false },
              prefEmail := some false }).1
        = ((processReminderTask 0 (fun _ => true)
            { id := 1, userId := 2, status := Status.pending, dueDate := none,
              isArchived := false,
              reminder := { enabled := true, reminderDate := some 0, notified := false },
              prefEmail := some false }).1, Outcome.notDue) :=
  disabled_pref_skips_and_marks 0 (fun _ => true) _ (by decide) rfl

/-- C5.  Counterexample to the claim that every edit path changing
`reminder.reminderAt` resets `sent` to `false`: the generic
`updateTask` endpoint, given a body that sets only
`reminder.reminderDate` (5 → 999) on a task with `notified = true`,
leaves `notified = true`, and the next due cycle (here at an instant far
past the new date, with a succeeding notifier) reports `notDue` —
nothing is redelivered. -/
theorem updateTask_no_reset_counterexample :
    updateTask 1 2 { reminderDate := some (some 999) }
        [{ id := 1, userId := 2, status := Status.pending, dueDate := none,
           isArchived := false,
           reminder := { enabled := true, reminderDate := some 5,
                         notified := true },
           prefEmail := none }]
      = [{ id := 1, userId := 2, status := Status.pending, dueDate := none,
           isArchived := false,
           reminder := { enabled := true, reminderDate := some 999,
                         notified := true },
           prefEmail := none }] ∧
    (some 999 : Option Int) ≠ some 5 ∧
    processReminderTask 1000000000 (fun _ => true)
        { id := 1, userId := 2, status := Status.pending, dueDate := none,
          isArchived := false,
          reminder := { enabled := true, reminderDate := some 999,
                        notified := true },
          prefEmail := none }
      = ({ id := 1, userId := 2, status := Status.pending, dueDate := none,
           isArchived := false,
           reminder := { enabled := true, reminderDate := some 999,
                         notified := true },
           prefEmail := none }, Outcome.notDue) := by
  decide

/-- C5 (amended).  Only the dedicated scheduling path resets delivery:
the generic `updateTask` endpoint `$set`s exactly the supplied paths, so
an update that does not itself supply `reminder.notified` leaves
`notified` unchanged even when it changes `reminder.reminderDate`;
whereas `scheduleReminder`, whenever it succeeds, stores the task with
`notified = false` and the new reminder date, so the next due cycle
redelivers for the new date. -/
theorem updateTask_keeps_notified_schedule_resets :
    (∀ (upd : TaskUpdates) (t : Task), upd.reminderNotified = none →
        (applyUpdates upd t).reminder.notified = t.reminder.notified) ∧
    (∀ (store : List Task) (taskId : Nat) (reminderDate : Int) (saveFails : Bool),
        (scheduleReminder store taskId reminderDate saveFails).1.success = true →
        ∀ u ∈ (scheduleReminder store taskId reminderDate saveFails).2,
          u.id = taskId →
            u.reminder.notified = false ∧
            u.reminder.reminderDate = some reminderDate) := by
  constructor
  · intro upd t h
    unfold applyUpdates
    rw [h]
    rfl
  · intro store taskId reminderDate saveFails hsucc u hu hid
    unfold scheduleReminder at hsucc hu
    cases hfind : store.find? (fun t => t.id = taskId) with
    | none =>
        rw [hfind] at hsucc
        exact absurd hsucc (by simp)
    | some t0 =>
        rw [hfind] at hsucc hu
        cases saveFails with
        | true => exact absurd hsucc (by simp at hsucc)
        | false =>
            simp only [if_neg (by simp : ¬(false = true))] at hu
            rcases List.mem_map.mp hu with ⟨v, -, hv⟩
            by_cases hvid : v.id = taskId
            · rw [if_pos hvid] at hv
              rw [← hv]
              exact ⟨rfl, rfl⟩
            · rw [if_neg hvid] at hv
              rw [← hv] at hid
              exact absurd hid hvid

/-- Witness for `updateTask_keeps_notified_schedule_resets`: the first
part applied to the concrete counterexample update, the second to a
concrete one-task store. -/
theorem updateTask_keeps_notified_schedule_resets_witness :
    (applyUpdates { reminderDate := some (some 999) }
        { id := 1, userId := 2, status := Status.pending, dueDate := none,
          isArchived := false,
          reminder := { enabled := true, reminderDate := some 5,
                        notified := true },
          prefEmail := none }).reminder.notified
      = ({ id := 1, userId := 2, status := Status.pending, dueDate := none,
           isArchived := false,
           reminder := { enabled := true, reminderDate := some 5,
                         notified := true },
           prefEmail := none } : Task).reminder.notified ∧
    (({ id := 1, userId := 2, status := Status.pending, dueDate := none,
        isArchived := false,
        reminder := { enabled := true, reminderDate := some 7,
                      notified := false },
        prefEmail := none } : Task).reminder.notified = false ∧
      ({ id := 1, userId := 2, status := Status.pending, dueDate := none,
         isArchived := false,
         reminder := { enabled := true, reminderDate := some 7,
                       notified := false },
         prefEmail := none } : Task).reminder.reminderDate = some 7) :=
  ⟨updateTask_keeps_notified_schedule_resets.1
      { reminderDate := some (some 999) } _ rfl,
   updateTask_keeps_notified_schedule_resets.2
      [{ id := 1, userId := 2, status := Status.pending, dueDate := none,
         isArchived := false,
         reminder := { enabled := true, reminderDate := some 5,
                       notified := true },
         prefEmail := none }] 1 7 false (by decide) _ (by decide) rfl⟩

/-- C6.  Counterexample to the claim that a reminder never fires before
its `reminderAt`: the scan window is `now + 5 minutes`, and a selected
task is delivered immediately, so a task whose `reminderDate` is one
minute in the future (60 000 ms, with `now = 0`) is delivered at a cycle
whose `now` precedes its `reminderAt`. -/
theorem fires_before_reminderAt_counterexample :
    (processReminderTask 0 (fun _ => true)
        { id := 1, userId := 2, status := Status.pending, dueDate := none,
          isArchived := false,
          reminder := { enabled := true, reminderDate := some 60000,
                        notified := false },
          prefEmail := none }).2 = Outcome.delivered ∧
    ({ id := 1, userId := 2, status := Status.pending, dueDate := none,
       isArchived := false,
       reminder := { enabled := true, reminderDate := some 60000,
                     notified := false },
       prefEmail := none } : Task).reminder.reminderDate = some 60000 ∧
    (0 : Int) < 60000 := by
  decide

/-- C6 (amended).  The early firing is bounded by the lookahead:
whenever a cycle invokes the notifier for a task (outcome `delivered`
or `deliveryFailed`), the task's `reminderDate` is set and is at most
`now + 5 minutes`; so a reminder can fire at most five minutes before
its `reminderAt`, and never earlier than that. -/
theorem notifier_only_within_lookahead (now : Int) (deliver : Nat → Bool)
    (t : Task)
    (h : (processReminderTask now deliver t).2 = Outcome.delivered ∨
         (processReminderTask now deliver t).2 = Outcome.deliveryFailed) :
    ∃ d : Int, t.reminder.reminderDate = some d ∧ d ≤ now + 5 * msPerMinute := by
  by_cases hdue : isDueReminder (now + 5 * msPerMinute) t = true
  · exact reminderDate_le_of_isDue hdue
  · exfalso
    have hno := @processReminderTask_notDue now deliver t
      (Bool.eq_false_iff.mpr hdue)
    rw [hno] at h
    rcases h with h | h <;> exact Outcome.noConfusion h

/-- Witness for `notifier_only_within_lookahead` at the concrete
early-firing task. -/
theorem notifier_only_within_lookahead_witness :
    ∃ d : Int,
      ({ id := 1, userId := 2, status := Status.pending, dueDate := none,
         isArchived := false,
         reminder := { enabled := true, reminderDate := some 60000,
                       notified := false },
         prefEmail := none } : Task).reminder.reminderDate = some d ∧
      d ≤ 0 + 5 * msPerMinute :=
  notifier_only_within_lookahead 0 (fun _ => true) _ (Or.inl (by decide))

/-- C7.  Cycle isolation: the per-task `try`/`catch` under
`Promise.allSettled` contains one task's notifier failure inside that
task; in the same cycle, any other due task with a willing owner and a
succeeding notifier is still attempted, delivered, and marked as
notified in the resulting store — whatever the notifier does on the
failing task. -/
theorem cycle_isolation (now : Int) (deliver : Nat → Bool)
    (store : List Task) (a b : Task) (hma : a ∈ store) (hmb : b ∈ store)
    (hadue : isDueReminder (now + 5 * msPerMinute) a = true)
    (hapref : shouldSendEmail a = true)
    (hafail : deliver a.id = false)
    (hbdue : isDueReminder (now + 5 * msPerMinute) b = true)
    (hbpref : shouldSendEmail b = true)
    (hbok : deliver b.id = true) :
    (a.id, Outcome.deliveryFailed) ∈ (checkAndSendReminders now deliver store).2 ∧
    (b.id, Outcome.delivered) ∈ (checkAndSendReminders now deliver store).2 ∧
    { b with reminder := { b.reminder with notified := true } }
      ∈ (checkAndSendReminders now deliver store).1 := by
  have ha : processReminderTask now deliver a = (a, Outcome.deliveryFailed) := by
    unfold processReminderTask
    rw [if_pos hadue, if_pos hapref,
      if_neg (by rw [hafail]; exact Bool.false_ne_true)]
  have hb : processReminderTask now deliver b
      = ({ b with reminder := { b.reminder with notified := true } },
         Outcome.delivered) := by
    unfold processReminderTask
    rw [if_pos hbdue, if_pos hbpref, if_pos hbok]
  refine ⟨?_, ?_, ?_⟩
  · exact List.mem_map.mpr ⟨a, hma, by rw [ha]⟩
  · exact List.mem_map.mpr ⟨b, hmb, by rw [hb]⟩
  · exact List.mem_map.mpr ⟨b, hmb, by rw [hb]⟩

/-- Witness for `cycle_isolation`: a concrete two-task store in which
the notifier fails for task 1 and succeeds for task 2. -/
theorem cycle_isolation_witness :
    ((1 : Nat), Outcome.deliveryFailed)
      ∈ (checkAndSendReminders 0 (fun n => n == 2)
          [{ id := 1, userId := 2, status := Status.pending, dueDate := none,
             isArchived := false,
             reminder := { enabled := true, reminderDate := some 0,
                           notified := false },
             prefEmail := none },
           { id := 2, userId := 3, status := Status.inProgress, dueDate := none,
             isArchived := false,
             reminder := { enabled := true, reminderDate := some 0,
                           notified := false },
             prefEmail := some true }]).2 ∧
    ((2 : Nat), Outcome.delivered)
      ∈ (checkAndSendReminders 0 (fun n => n == 2)
          [{ id := 1, userId := 2, status := Status.pending, dueDate := none,
             isArchived := false,
             reminder := { enabled := true, reminderDate := some 0,
                           notified := false },
             prefEmail := none },
           { id := 2, userId := 3, status := Status.inProgress, dueDate := none,
             isArchived := false,
             reminder := { enabled := true, reminderDate := some 0,
                           notified := false },
             prefEmail := some true }]).2 ∧
    ({ id := 2, userId := 3, status := Status.inProgress, dueDate := none,
       isArchived := false,
       reminder := { enabled := true, reminderDate := some 0,
                     notified := true },
       prefEmail := some true } : Task)
      ∈ (checkAndSendReminders 0 (fun n => n == 2)
          [{ id := 1, userId := 2, status := Status.pending, dueDate := none,
             isArchived := false,
             reminder := { enabled := true, reminderDate := some 0,
                           notified := false },
             prefEmail := none },
           { id := 2, userId := 3, status := Status.inProgress, dueDate := none,
             isArchived := false,
             reminder := { enabled := true, reminderDate := some 0,
                           notified := false },
             prefEmail := some true }]).1 :=
  cycle_isolation 0 (fun n => n == 2)
    [{ id := 1, userId := 2, status := Status.pending, dueDate := none,
       isArchived := false,
       reminder := { enabled := true, reminderDate := some 0,
                     notified := false },
       prefEmail := none },
     { id := 2, userId := 3, status := Status.inProgress, dueDate := none,
       isArchived := false,
       reminder := { enabled := true, reminderDate := some 0,
                     notified := false },
       prefEmail := some true }]
    { id := 1, userId := 2, status := Status.pending, dueDate := none,
      isArchived := false,
      reminder := { enabled := true, reminderDate := some 0,
                    notified := false },
      prefEmail := none }
    { id := 2, userId := 3, status := Status.inProgress, dueDate := none,
      isArchived := false,
      reminder := { enabled := true, reminderDate := some 0,
                    notified := false },
      prefEmail := some true }
    (by decide) (by decide) (by decide) (by decide) rfl (by decide) (by decide) rfl

/-- A task is active (status pending or in-progress) exactly when its
status is neither completed nor cancelled. -/
lemma status_active_iff (s : Status) :
    (s == Status.pending || s == Status.inProgress)
      = !(s == Status.completed || s == Status.cancelled) := by
  cases s <;> rfl

/-- C8.  Counterexample to the claim that the summary counts as overdue
exactly the tasks with `dueDate < startOfDay(now)`: at
`now = 90 000 000` ms (day 1, 01:00 UTC) a task due at `93 600 000` ms
(the same day, 02:00 — one hour in the future) is counted overdue by
the executed query, whose `$lt` bound is the aliased `today` after the
due-today `setHours` mutations, i.e. `endOfDay now = 172 799 999`;
under the claimed bound `startOfDay(now) = 86 400 000` it must not be
counted. -/
theorem overdue_boundary_counterexample :
    overdueCount 90000000 2
        [{ id := 1, userId := 2, status := Status.pending,
           dueDate := some 93600000, isArchived := false,
           reminder := { enabled := false, reminderDate := none,
                         notified := false },
           prefEmail := none }] = 1 ∧
    ([{ id := 1, userId := 2, status := Status.pending,
        dueDate := some 93600000, isArchived := false,
        reminder := { enabled := false, reminderDate := none,
                      notified := false },
        prefEmail := none }].filter (specOverdue 90000000 2)).length = 0 ∧
    startOfDay 90000000 = 86400000 ∧
    endOfDay 90000000 = 172799999 ∧
    (90000000 : Int) < 93600000 := by
  decide

/-- C8 (amended).  The summary's overdue count includes exactly the
tasks of the user with `dueDate < endOfDay now` — the end
(23:59:59.999) of the current day in the reference timezone, because
the overdue filter aliases the `today` `Date` that the due-today
bounds mutate via `setHours` before the lazy query executes — status
not in {completed, cancelled}, and `archived = false`. -/
theorem overdueCount_amended (now : Int) (userId : Nat)
    (store : List Task) :
    overdueCount now userId store
      = (store.filter (amendedOverdue now userId)).length := by
  unfold overdueCount
  congr 1
  apply List.filter_congr
  intro t _
  unfold overdueQuery amendedOverdue
  rw [status_active_iff]

/-- C9.  The completion rate: 0 when the user has no tasks (the code
guards the division, so no division by zero occurs), and otherwise the
half-up rounding of `100 × completed / total`; in particular 10 tasks
with 3 completed give 30. -/
theorem completionRate_spec :
    (∀ completed : ℕ, completionRate 0 completed = 0) ∧
    (∀ total completed : ℕ, 0 < total →
        completionRate total completed
          = ⌊(100 * (completed : ℚ)) / (total : ℚ) + 1 / 2⌋) ∧
    completionRate 10 3 = 30 := by
  refine ⟨?_, ?_, ?_⟩
  · intro c
    simp [completionRate]
  · intro total c ht
    unfold completionRate mathRound
    rw [if_pos ht]
    congr 1
    ring
  · have h : completionRate 10 3 = ⌊(61 / 2 : ℚ)⌋ := by
      unfold completionRate mathRound
      norm_num
    rw [h, Int.floor_eq_iff]
    norm_num

/-- Witness for `completionRate_spec` at concrete counts. -/
theorem completionRate_spec_witness :
    completionRate 0 5 = 0 ∧ completionRate 10 3 = 30 ∧
    completionRate 4 1 = ⌊(100 * (1 : ℚ)) / (4 : ℚ) + 1 / 2⌋ :=
  ⟨completionRate_spec.1 5, completionRate_spec.2.2,
   completionRate_spec.2.1 4 1 (by norm_num)⟩

/-- C10.  Neither `scheduleReminder` nor `cancelReminder` lets an error
escape: the whole body sits in a `try`/`catch` whose catch returns a
plain result object.  For every input they return a result whose
`success` flag is `true` with the success message or `false` with the
failure message; a missing task yields a failed result carrying the
`Task not found` error text, and a store failure while saving also
yields a failed result. -/
theorem scheduleCancel_always_return_result :
    (∀ (store : List Task) (taskId : Nat) (reminderDate : Int) (saveFails : Bool),
        ((scheduleReminder store taskId reminderDate saveFails).1.success = true ∧
          (scheduleReminder store taskId reminderDate saveFails).1.message
            = "Reminder scheduled successfully") ∨
        ((scheduleReminder store taskId reminderDate saveFails).1.success = false ∧
          (scheduleReminder store taskId reminderDate saveFails).1.message
            = "Failed to schedule reminder")) ∧
    (∀ (store : List Task) (taskId : Nat) (saveFails : Bool),
        ((cancelReminder store taskId saveFails).1.success = true ∧
          (cancelReminder store taskId saveFails).1.message
            = "Reminder cancelled successfully") ∨
        ((cancelReminder store taskId saveFails).1.success = false ∧
          (cancelReminder store taskId saveFails).1.message
            = "Failed to cancel reminder")) ∧
    (∀ (store : List Task) (taskId : Nat) (reminderDate : Int) (saveFails : Bool),
        store.find? (fun t => t.id = taskId) = none →
          (scheduleReminder store taskId reminderDate saveFails).1.success = false ∧
          (scheduleReminder store taskId reminderDate saveFails).1.error
            = some "Task not found") ∧
    (∀ (store : List Task) (taskId : Nat) (saveFails : Bool),
        store.find? (fun t => t.id = taskId) = none →
          (cancelReminder store taskId saveFails).1.success = false ∧
          (cancelReminder store taskId saveFails).1.error
            = some "Task not found") ∧
    (∀ (store : List Task) (taskId : Nat) (reminderDate : Int),
        (scheduleReminder store taskId reminderDate true).1.success = false) ∧
    (∀ (store : List Task) (taskId : Nat),
        (cancelReminder store taskId true).1.success = false) := by
  refine ⟨?_, ?_, ?_, ?_, ?_, ?_⟩
  · intro store taskId reminderDate saveFails
    unfold scheduleReminder
    cases hfind : store.find? (fun t => t.id = taskId) with
    | none => exact Or.inr ⟨rfl, rfl⟩
    | some t0 =>
        cases saveFails with
        | true => exact Or.inr ⟨rfl, rfl⟩
        | false => exact Or.inl ⟨rfl, rfl⟩
  · intro store taskId saveFails
    unfold cancelReminder
    cases hfind : store.find? (fun t => t.id = taskId) with
    | none => exact Or.inr ⟨rfl, rfl⟩
    | some t0 =>
        cases saveFails with
        | true => exact Or.inr ⟨rfl, rfl⟩
        | false => exact Or.inl ⟨rfl, rfl⟩
  · intro store taskId reminderDate saveFails hfind
    unfold scheduleReminder
    rw [hfind]
    exact ⟨rfl, rfl⟩
  · intro store taskId saveFails hfind
    unfold cancelReminder
    rw [hfind]
    exact ⟨rfl, rfl⟩
  · intro store taskId reminderDate
    unfold scheduleReminder
    cases hfind : store.find? (fun t => t.id = taskId) with
    | none => rfl
    | some t0 => rfl
  · intro store taskId
    unfold cancelReminder
    cases hfind : store.find? (fun t => t.id = taskId) with
    | none => rfl
    | some t0 => rfl

/-- Witness for `scheduleCancel_always_return_result`: the empty store
(no task matches) and the store-failure flag, for both operations. -/
theorem scheduleCancel_always_return_result_witness :
    ((scheduleReminder [] 1 5 false).1.success = false ∧
      (scheduleReminder [] 1 5 false).1.error = some "Task not found") ∧
    ((cancelReminder [] 1 false).1.success = false ∧
      (cancelReminder [] 1 false).1.error = some "Task not found") ∧
    (scheduleReminder [] 1 5 true).1.success = false ∧
    (cancelReminder [] 1 true).1.success = false :=
  ⟨scheduleCancel_always_return_result.2.2.1 [] 1 5 false rfl,
   scheduleCancel_always_return_result.2.2.2.1 [] 1 false rfl,
   scheduleCancel_always_return_result.2.2.2.2.1 [] 1 5,
   scheduleCancel_always_return_result.2.2.2.2.2 [] 1⟩

end TaskTrackr
